import Mathlib

/-!
Verification of selfdrive/pandad.py, the panda bring-up orchestrator.

Shallow embedding conventions:
- Byte sequences (Python bytes) are modelled as lists of naturals; the empty
  byte string is the empty list.
- The external panda driver library is out of scope of the repository; the
  effect of flash and recover on the device, and the content of the firmware
  image files, are passed in as explicit parameters (functions/oracles), so
  every theorem quantifies over all possible driver behaviours.
- Exceptions are modelled with Except; the call sequence a function performs
  on the driver is returned as an explicit trace list.
-/

/-- Byte sequences (Python bytes) as lists of naturals. -/
abbrev Bytes := List Nat

/-- Hardware-type constant of the external panda library (value 5 in the
library; only distinctness and membership in INTERNAL_TYPES matter here). -/
def HW_TYPE_UNO : Nat := 5

/-- Hardware-type constant of the external panda library (value 6). -/
def HW_TYPE_DOS : Nat := 6

/-- From pandad.py line 15: INTERNAL_TYPES = [Panda.HW_TYPE_UNO, Panda.HW_TYPE_DOS]. -/
def INTERNAL_TYPES : List Nat := [HW_TYPE_UNO, HW_TYPE_DOS]

/-- Serial numbers (Python str) as lists of code points, so that the
lexicographic comparison below is fully computable. -/
abbrev Serial := List Nat

/-- Lexicographic less-than on code-point lists: the comparison Python
performs on two serial strings with the < operator. -/
def serialLt : Serial → Serial → Bool
  | [], [] => false
  | [], _ :: _ => true
  | _ :: _, [] => false
  | a :: as, b :: bs => if a < b then true else if b < a then false else serialLt as bs

/-- A connected panda handle as seen by the sorting and supervision code:
its serial (Python a._serial), its hardware type (a.get_type()), and the
heartbeat_lost flag of its health record (panda.health()["heartbeat_lost"]). -/
structure Panda where
  serial : Serial
  hwType : Nat
  heartbeat_lost : Bool
  deriving DecidableEq

/-- Embedding of panda_sort_cmp (pandad.py lines 95-110).  The Python
function returns -1, 1, or a bool; Python booleans are integers (True = 1,
False = 0), so the return type here is Int and the two bool-returning
branches are embedded as 1/0. -/
def panda_sort_cmp (a b : Panda) : Int :=
  if a.hwType ∈ INTERNAL_TYPES ∧ b.hwType ∉ INTERNAL_TYPES then -1
  else if a.hwType ∉ INTERNAL_TYPES ∧ b.hwType ∈ INTERNAL_TYPES then 1
  else if a.hwType ≠ b.hwType then (if a.hwType < b.hwType then 1 else 0)
  else (if serialLt a.serial b.serial then 1 else 0)

/-- functools.cmp_to_key wraps the comparator in a key object whose
less-than is cmp(a, b) < 0; list.sort consults only this less-than. -/
def cmp_lt (a b : Panda) : Bool := decide (panda_sort_cmp a b < 0)

/-- Stable insertion step: x came earlier in the original list than every
element of the sorted tail, so x passes an element y only when y is strictly
below x, and stops in front of the first y that is not. -/
def insert_lt (x : Panda) : List Panda → List Panda
  | [] => [x]
  | y :: ys => if cmp_lt y x then y :: insert_lt x ys else x :: y :: ys

/-- Model of pandas.sort(key=cmp_to_key(panda_sort_cmp)) (pandad.py line
127) as a stable insertion sort over cmp_lt.  CPython list.sort is a stable
sort driven only by the less-than of the key objects; cmp_lt here is a
strict weak order (it is induced by a boolean key, see cmp_lt_eq below), so
the stable-sorted result is unique and the insertion sort computes it. -/
def sortPandas : List Panda → List Panda
  | [] => []
  | x :: xs => insert_lt x (sortPandas xs)

/-- Membership of the hardware type of a board in INTERNAL_TYPES. -/
def isInternal (p : Panda) : Bool := decide (p.hwType ∈ INTERNAL_TYPES)

/-- The comparator yields a negative value exactly when a is internal and b
is external: the hardware-type and serial branches return Python booleans
(0 or 1), which are never negative, so they never make the key object
compare as less-than. -/
theorem cmp_lt_eq (a b : Panda) :
    cmp_lt a b = (isInternal a && ! isInternal b) := by
  unfold cmp_lt panda_sort_cmp isInternal
  by_cases ha : a.hwType ∈ INTERNAL_TYPES <;>
    by_cases hb : b.hwType ∈ INTERNAL_TYPES <;>
      simp [ha, hb] <;> split <;> first | decide | (split <;> decide)

/-- A board all of INTERNAL_TYPES passes is simply prepended by the stable
insertion step: nothing compares strictly below an internal board. -/
theorem insert_lt_internal (x : Panda) (l : List Panda) (hx : isInternal x = true) :
    insert_lt x l = x :: l := by
  cases l with
  | nil => rfl
  | cons y ys =>
    unfold insert_lt
    rw [cmp_lt_eq, hx]
    simp

/-- Inserting x after a block of elements strictly below x and in front of a
block none of which is strictly below x. -/
theorem insert_lt_append (x : Panda) (A B : List Panda)
    (hA : ∀ y ∈ A, cmp_lt y x = true) (hB : ∀ y ∈ B, cmp_lt y x = false) :
    insert_lt x (A ++ B) = A ++ x :: B := by
  induction A with
  | nil =>
    cases B with
    | nil => rfl
    | cons y ys =>
      simp only [List.nil_append]
      unfold insert_lt
      rw [hB y (by simp)]
      simp
  | cons a A ih =>
    simp only [List.cons_append]
    unfold insert_lt
    rw [hA a (by simp)]
    simp only [if_true]
    rw [ih (fun y hy => hA y (by simp [hy]))]

/-- Closed form of the sort the code actually performs: because the
comparator only ever returns a negative value on internal-versus-external
pairs, the stable sort moves internal boards (in their original relative
order) in front of external boards (in their original relative order) and
does nothing else. -/
theorem sortPandas_eq_filter (l : List Panda) :
    sortPandas l = l.filter isInternal ++ l.filter (fun p => ! isInternal p) := by
  induction l with
  | nil => rfl
  | cons x xs ih =>
    unfold sortPandas
    rw [ih]
    by_cases hx : isInternal x = true
    · rw [insert_lt_internal x _ hx]
      simp [List.filter_cons, hx]
    · have hx' : isInternal x = false := by
        cases h : isInternal x with
        | true => exact absurd h hx
        | false => rfl
      rw [insert_lt_append x _ _
        (fun y hy => by
          rw [cmp_lt_eq, hx', (List.mem_filter.mp hy).2]
          rfl)
        (fun y hy => by
          have : (! isInternal y) = true := (List.mem_filter.mp hy).2
          rw [cmp_lt_eq]
          simp at this
          simp [this])]
      simp [List.filter_cons, hx']

/-- Filtering a list in which every element satisfies p is the identity. -/
theorem filter_of_all_true (p : Panda → Bool) (l : List Panda)
    (h : ∀ x ∈ l, p x = true) : l.filter p = l := by
  induction l with
  | nil => rfl
  | cons x xs ih =>
    rw [List.filter_cons, h x (by simp)]
    simp only [if_true]
    rw [ih (fun y hy => h y (by simp [hy]))]

/-- Filtering a list in which no element satisfies p gives the empty list. -/
theorem filter_of_all_false (p : Panda → Bool) (l : List Panda)
    (h : ∀ x ∈ l, p x = false) : l.filter p = [] := by
  induction l with
  | nil => rfl
  | cons x xs ih =>
    rw [List.filter_cons, h x (by simp)]
    simp only [Bool.false_eq_true, if_false]
    rw [ih (fun y hy => h y (by simp [hy]))]

/-- C8: the deterministic ordering is idempotent: sorting an already-sorted
board list with cmp_to_key(panda_sort_cmp) leaves it unchanged, i.e.
sortPandas (sortPandas xs) = sortPandas xs for every list xs. -/
theorem sortPandas_idempotent (l : List Panda) :
    sortPandas (sortPandas l) = sortPandas l := by
  rw [sortPandas_eq_filter l, sortPandas_eq_filter, List.filter_append, List.filter_append]
  rw [filter_of_all_true isInternal (l.filter isInternal)
    (fun x hx => (List.mem_filter.mp hx).2)]
  rw [filter_of_all_false isInternal (l.filter (fun p => ! isInternal p))
    (fun x hx => by
      have h2 := (List.mem_filter.mp hx).2
      simp only [Bool.not_eq_eq_eq_not, Bool.not_true] at h2
      exact h2)]
  rw [filter_of_all_false (fun p => ! isInternal p) (l.filter isInternal)
    (fun x hx => by
      have h2 := (List.mem_filter.mp hx).2
      simp [h2])]
  rw [filter_of_all_true (fun p => ! isInternal p) (l.filter (fun p => ! isInternal p))
    (fun x hx => (List.mem_filter.mp hx).2)]
  simp

/-- Internal board with serial A (code point 65): (internal, serialA). -/
def pInternalA : Panda := ⟨[65], HW_TYPE_UNO, false⟩

/-- Internal board with serial B (code point 66): (internal, serialB). -/
def pInternalB : Panda := ⟨[66], HW_TYPE_UNO, false⟩

/-- External board (hardware type 3, not in INTERNAL_TYPES) with serial A. -/
def pExternalA : Panda := ⟨[65], 3, false⟩

/-- C1: evaluation of the sort at the three-board input of the claim, given
in the order {(internal, serialB), (external, serialA), (internal, serialA)}.
The claim demands [(internal, serialA), (internal, serialB), (external,
serialA)], but the comparator returns Python booleans (0 or 1, never a
negative number) on the hardware-type and serial tie-break branches, so the
sort only moves internal boards in front of external ones and never reorders
boards of equal classification: the result keeps serialB before serialA. -/
theorem sortPandas_three_board_eval :
    sortPandas [pInternalB, pExternalA, pInternalA] =
      [pInternalB, pInternalA, pExternalA] ∧
    sortPandas [pInternalB, pExternalA, pInternalA] ≠
      [pInternalA, pInternalB, pExternalA] := by decide

/-!
Flash/recover state machine: embedding of get_expected_signature (pandad.py
lines 18-25) and flash_panda (lines 28-62).

The device is modelled by the state the driver reports: bootstub flag,
current firmware signature, and version string.  The externally provided
behaviour of panda.flash() and panda.recover() on the device state is given
as functions fE and rE; reads (panda.bootstub, get_signature, get_version)
return fields of the current state, so signature reads are stable between
state changes.  Every driver call flash_panda makes is recorded in order in
a trace list.
-/

/-- Device state as reported by the panda driver. -/
structure PandaState where
  bootstub : Bool
  signature : Bytes
  version : String
  deriving DecidableEq

/-- Driver calls flash_panda and the supervision loop can make on a board. -/
inductive DriverCall where
  | getVersion
  | getSignature
  | flash
  | recover
  | reset
  | health
  | close
  deriving DecidableEq

/-- Errors that escape the orchestrator: the bare AssertionError raised by
flash_panda (pandad.py lines 55 and 61) and the CalledProcessError raised by
subprocess.run(..., check=True) on a non-zero daemon exit (line 136). -/
inductive PandadError where
  | assertionError
  | calledProcessError (code : Int)
  deriving DecidableEq

/-- Firmware image files the resolver can pick (pandad.py line 19): the
default image DEFAULT_FW_FN or the high-performance image DEFAULT_H7_FW_FN. -/
inductive FwFile where
  | defaultFw
  | h7Fw
  deriving DecidableEq

/-- File selection of get_expected_signature (line 19): the H7 image exactly
when panda._mcu_type == 2, the default image otherwise. -/
def fw_file_for (mcu_type : Nat) : FwFile :=
  if mcu_type = 2 then FwFile.h7Fw else FwFile.defaultFw

/-- Embedding of get_expected_signature (lines 18-25).  readSig models
Panda.get_signature_from_firmware: ok gives the extracted signature, error
models any raised exception, which the except branch replaces by b"". -/
def get_expected_signature (mcu_type : Nat) (readSig : FwFile → Except Unit Bytes) : Bytes :=
  match readSig (fw_file_for mcu_type) with
  | Except.ok s => s
  | Except.error _ => []

/-- Reads performed at lines 33-34: get_version and get_signature are called
only when the board is not in bootstub (otherwise the literals "bootstub"
and b"" are used without a driver call). -/
def initialReads (s0 : PandaState) : List DriverCall :=
  if s0.bootstub then [] else [DriverCall.getVersion, DriverCall.getSignature]

/-- panda_signature at line 34: b"" when in bootstub, else the device
signature. -/
def observed_signature (s0 : PandaState) : Bytes :=
  if s0.bootstub then [] else s0.signature

/-- Condition of line 42: panda.bootstub or panda_signature != fw_signature. -/
def needsFlash (fw : Bytes) (s0 : PandaState) : Bool :=
  s0.bootstub || decide (observed_signature s0 ≠ fw)

/-- Device state after the conditional flash of lines 42-45. -/
def afterFlash (fw : Bytes) (fE : PandaState → PandaState) (s0 : PandaState) : PandaState :=
  if needsFlash fw s0 then fE s0 else s0

/-- Trace of the conditional flash of lines 42-45. -/
def flashCalls (fw : Bytes) (s0 : PandaState) : List DriverCall :=
  if needsFlash fw s0 then [DriverCall.flash] else []

/-- Device state after the conditional recover of lines 47-51 (taken when
the board still reports bootstub after the flash step). -/
def afterRecover (fw : Bytes) (fE rE : PandaState → PandaState) (s0 : PandaState) : PandaState :=
  if (afterFlash fw fE s0).bootstub then rE (afterFlash fw fE s0) else afterFlash fw fE s0

/-- Trace of the conditional recover of lines 47-51: the branch reads the
bootstub version (get_version) and then calls recover. -/
def recoverCalls (fw : Bytes) (fE : PandaState → PandaState) (s0 : PandaState) : List DriverCall :=
  if (afterFlash fw fE s0).bootstub then [DriverCall.getVersion, DriverCall.recover] else []

/-- Embedding of flash_panda (lines 28-62) for a board whose expected
signature is fw: returns the outcome (the verified device state, or the
AssertionError of line 55 or 61) together with the ordered trace of driver
calls performed before returning or raising. -/
def flash_panda (fw : Bytes) (fE rE : PandaState → PandaState) (s0 : PandaState) :
    Except PandadError PandaState × List DriverCall :=
  let s2 := afterRecover fw fE rE s0
  let pre := initialReads s0 ++ flashCalls fw s0 ++ recoverCalls fw fE s0
  if s2.bootstub then
    (Except.error PandadError.assertionError, pre)
  else if s2.signature ≠ fw then
    (Except.error PandadError.assertionError, pre ++ [DriverCall.getSignature])
  else
    (Except.ok s2, pre ++ [DriverCall.getSignature])

/-- C3: get_expected_signature selects between exactly the two firmware
image files: the H7 image exactly when the mcu class is the distinguished
value 2, the default image for every other mcu class, and on a successful
read it returns the signature extracted from the selected file. -/
theorem get_expected_signature_selects (mcu_type : Nat)
    (readSig : FwFile → Except Unit Bytes) (s : Bytes)
    (h : readSig (fw_file_for mcu_type) = Except.ok s) :
    (mcu_type = 2 → fw_file_for mcu_type = FwFile.h7Fw) ∧
    (mcu_type ≠ 2 → fw_file_for mcu_type = FwFile.defaultFw) ∧
    get_expected_signature mcu_type readSig = s := by
  refine ⟨fun h2 => by simp [fw_file_for, h2], fun h2 => by simp [fw_file_for, h2], ?_⟩
  unfold get_expected_signature
  rw [h]

/-- Witness for C3 at mcu class 2 and at mcu class 3 with a reader that
returns the signature [7] for every file. -/
theorem get_expected_signature_selects_witness :
    ((2 : Nat) = 2 → fw_file_for 2 = FwFile.h7Fw) ∧
    ((2 : Nat) ≠ 2 → fw_file_for 2 = FwFile.defaultFw) ∧
    get_expected_signature 2 (fun _ => Except.ok [7]) = [7] :=
  get_expected_signature_selects 2 (fun _ => Except.ok [7]) [7] rfl

/-- C4: a board that is not in bootstub and whose observed signature equals
the expected signature is returned unchanged as verified, with no flash and
no recover call in the trace. -/
theorem flash_panda_verified_skip (fw : Bytes) (fE rE : PandaState → PandaState)
    (s0 : PandaState) (hb : s0.bootstub = false) (hs : s0.signature = fw) :
    (flash_panda fw fE rE s0).fst = Except.ok s0 ∧
    DriverCall.flash ∉ (flash_panda fw fE rE s0).snd ∧
    DriverCall.recover ∉ (flash_panda fw fE rE s0).snd := by
  have hnf : needsFlash fw s0 = false := by
    simp [needsFlash, observed_signature, hb, hs]
  have h1 : afterFlash fw fE s0 = s0 := by simp [afterFlash, hnf]
  have h2 : afterRecover fw fE rE s0 = s0 := by simp [afterRecover, h1, hb]
  unfold flash_panda
  simp only [h2, hb, flashCalls, hnf, recoverCalls, h1, initialReads, hs]
  simp

/-- Witness for C4: an up-to-date board with signature [1] is returned as is
and neither flash nor recover appears in the trace. -/
theorem flash_panda_verified_skip_witness :
    (flash_panda [1] (fun s => s) (fun s => s) ⟨false, [1], "v1"⟩).fst =
      Except.ok ⟨false, [1], "v1"⟩ ∧
    DriverCall.flash ∉ (flash_panda [1] (fun s => s) (fun s => s) ⟨false, [1], "v1"⟩).snd ∧
    DriverCall.recover ∉ (flash_panda [1] (fun s => s) (fun s => s) ⟨false, [1], "v1"⟩).snd :=
  flash_panda_verified_skip [1] (fun s => s) (fun s => s) ⟨false, [1], "v1"⟩ rfl rfl

/-- C5: a board that still reports bootstub immediately after recover makes
flash_panda raise the AssertionError of line 55, and the trace ends with the
recover call: no further driver call (no signature read, reset, health or
close) happens on the board afterwards. -/
theorem flash_panda_still_bootstub (fw : Bytes) (fE rE : PandaState → PandaState)
    (s0 : PandaState) (h1 : (afterFlash fw fE s0).bootstub = true)
    (h2 : (rE (afterFlash fw fE s0)).bootstub = true) :
    (flash_panda fw fE rE s0).fst = Except.error PandadError.assertionError ∧
    (flash_panda fw fE rE s0).snd =
      initialReads s0 ++ flashCalls fw s0 ++ [DriverCall.getVersion, DriverCall.recover] := by
  have hrec : afterRecover fw fE rE s0 = rE (afterFlash fw fE s0) := by
    simp [afterRecover, h1]
  unfold flash_panda
  simp only [hrec, h2, recoverCalls, h1]
  simp

/-- Witness for C5: a board in bootstub on which flashing and recovery keep
it in bootstub; flash_panda raises and the last call is recover. -/
theorem flash_panda_still_bootstub_witness :
    (flash_panda [] (fun s => s) (fun s => s) ⟨true, [], "b"⟩).fst =
      Except.error PandadError.assertionError ∧
    (flash_panda [] (fun s => s) (fun s => s) ⟨true, [], "b"⟩).snd =
      initialReads ⟨true, [], "b"⟩ ++ flashCalls [] ⟨true, [], "b"⟩ ++
        [DriverCall.getVersion, DriverCall.recover] :=
  flash_panda_still_bootstub [] (fun s => s) (fun s => s) ⟨true, [], "b"⟩ rfl rfl

/-- C6: when the board is out of bootstub after the flash/recover steps,
flash_panda re-reads the device signature (the trace ends with a
getSignature call) and raises the AssertionError of line 61 exactly when the
re-read signature differs from the expected one; when it matches, the board
state is returned. -/
theorem flash_panda_reverify (fw : Bytes) (fE rE : PandaState → PandaState)
    (s0 : PandaState) (h : (afterRecover fw fE rE s0).bootstub = false) :
    ((flash_panda fw fE rE s0).fst = Except.error PandadError.assertionError ↔
      (afterRecover fw fE rE s0).signature ≠ fw) ∧
    ((afterRecover fw fE rE s0).signature = fw →
      (flash_panda fw fE rE s0).fst = Except.ok (afterRecover fw fE rE s0)) ∧
    (flash_panda fw fE rE s0).snd =
      initialReads s0 ++ flashCalls fw s0 ++ recoverCalls fw fE s0 ++
        [DriverCall.getSignature] := by
  unfold flash_panda
  simp only [h]
  by_cases hsig : (afterRecover fw fE rE s0).signature = fw
  · simp [hsig]
  · simp [hsig]

/-- Witness for C6 on a board that leaves the flash step with signature [2]
while the expected signature is [1]: flash_panda raises. -/
theorem flash_panda_reverify_witness :
    ((flash_panda [1] (fun _ => ⟨false, [2], "v"⟩) (fun s => s) ⟨true, [], "b"⟩).fst =
        Except.error PandadError.assertionError ↔
      (afterRecover [1] (fun _ => ⟨false, [2], "v"⟩) (fun s => s) ⟨true, [], "b"⟩).signature ≠ [1]) ∧
    ((afterRecover [1] (fun _ => ⟨false, [2], "v"⟩) (fun s => s) ⟨true, [], "b"⟩).signature = [1] →
      (flash_panda [1] (fun _ => ⟨false, [2], "v"⟩) (fun s => s) ⟨true, [], "b"⟩).fst =
        Except.ok (afterRecover [1] (fun _ => ⟨false, [2], "v"⟩) (fun s => s) ⟨true, [], "b"⟩)) ∧
    (flash_panda [1] (fun _ => ⟨false, [2], "v"⟩) (fun s => s) ⟨true, [], "b"⟩).snd =
      initialReads ⟨true, [], "b"⟩ ++ flashCalls [1] ⟨true, [], "b"⟩ ++
        recoverCalls [1] (fun _ => ⟨false, [2], "v"⟩) ⟨true, [], "b"⟩ ++
        [DriverCall.getSignature] :=
  flash_panda_reverify [1] (fun _ => ⟨false, [2], "v"⟩) (fun s => s) ⟨true, [], "b"⟩ rfl

/-- C7: any failure of the firmware read makes get_expected_signature return
the empty byte sequence (it is a total function: the except branch of line
23 swallows the exception), and a board not in bootstub whose observed
signature is non-empty then fails the comparison of line 42, so the flash
branch is taken: a flash call appears in the trace. -/
theorem empty_expected_forces_flash (mcu_type : Nat)
    (readSig : FwFile → Except Unit Bytes) (e : Unit)
    (h : readSig (fw_file_for mcu_type) = Except.error e)
    (fE rE : PandaState → PandaState) (s0 : PandaState)
    (hb : s0.bootstub = false) (hs : s0.signature ≠ []) :
    get_expected_signature mcu_type readSig = [] ∧
    DriverCall.flash ∈
      (flash_panda (get_expected_signature mcu_type readSig) fE rE s0).snd := by
  have hsig : get_expected_signature mcu_type readSig = [] := by
    unfold get_expected_signature
    rw [h]
  refine ⟨hsig, ?_⟩
  rw [hsig]
  have hnf : needsFlash [] s0 = true := by
    simp [needsFlash, observed_signature, hb, hs]
  have hfc : flashCalls [] s0 = [DriverCall.flash] := by simp [flashCalls, hnf]
  unfold flash_panda
  by_cases h2 : (afterRecover [] fE rE s0).bootstub = true
  · simp [h2, hfc]
  · simp only [h2]
    by_cases h3 : (afterRecover [] fE rE s0).signature = []
    · simp [h3, hfc, h2]
    · simp [h3, hfc, h2]

/-- Witness for C7: a failing reader yields the empty expected signature and
a board with signature [9] gets flashed. -/
theorem empty_expected_forces_flash_witness :
    get_expected_signature 0 (fun _ => Except.error ()) = [] ∧
    DriverCall.flash ∈
      (flash_panda (get_expected_signature 0 (fun _ => Except.error ()))
        (fun s => s) (fun s => s) ⟨false, [9], "v"⟩).snd :=
  empty_expected_forces_flash 0 (fun _ => Except.error ()) () rfl
    (fun s => s) (fun s => s) ⟨false, [9], "v"⟩ rfl (by decide)

/-- C10: with an empty expected signature, flash_panda can only succeed if
the signature read after the flash/recover steps is itself empty: every
successfully returned state has an empty signature, and if the board leaves
the flash/recover steps out of bootstub with a non-empty signature the
AssertionError of line 61 is raised. -/
theorem flash_panda_empty_expected (fE rE : PandaState → PandaState) (s0 : PandaState) :
    (∀ s, (flash_panda [] fE rE s0).fst = Except.ok s → s.signature = ([] : Bytes)) ∧
    ((afterRecover [] fE rE s0).bootstub = false →
      (afterRecover [] fE rE s0).signature ≠ [] →
      (flash_panda [] fE rE s0).fst = Except.error PandadError.assertionError) := by
  unfold flash_panda
  by_cases h2 : (afterRecover [] fE rE s0).bootstub = true
  · constructor
    · intro s hok
      simp [h2] at hok
    · intro h3
      rw [h2] at h3
      exact absurd h3 (by simp)
  · simp only [h2]
    by_cases h3 : (afterRecover [] fE rE s0).signature = []
    · constructor
      · intro s hok
        simp only [eq_self_iff_true, h3] at hok
        simp at hok
        rw [← hok]
        exact h3
      · intro _ h4
        exact absurd h3 h4
    · constructor
      · intro s hok
        simp [h3] at hok
      · intro _ _
        simp [h3]

/-- Witness for C10: empty expected signature and a board whose firmware
reports the non-empty signature [9] and is not in bootstub: flash_panda
raises (here the flash leaves the state untouched). -/
theorem flash_panda_empty_expected_witness :
    (flash_panda [] (fun s => s) (fun s => s) ⟨false, [9], "v"⟩).fst =
      Except.error PandadError.assertionError :=
  (flash_panda_empty_expected (fun s => s) (fun s => s) ⟨false, [9], "v"⟩).2
    (by decide) (by decide)

/-!
Supervision loop: embedding of main (pandad.py lines 112-136).  One
iteration takes the verified boards that get_pandas produced (their health
records already attached) and the exit status the daemon child process will
return; it yields the settings-store writes, the ordered serial list handed
to ./boardd, and the outcome: ok means control flows back to discovery for
another iteration, error means the exception escapes main (subprocess.run is
called with check=True, so a non-zero exit status raises CalledProcessError,
which nothing in main catches).
-/

/-- A single put_bool write to the durable settings store (Params). -/
structure ParamWrite where
  key : String
  value : Bool
  deriving DecidableEq

/-- Input of one supervision-loop iteration: the boards discovery produced
and the exit status of the daemon run at the end of the iteration. -/
structure IterationInput where
  pandas : List Panda
  exitCode : Int
  deriving DecidableEq

/-- Settings-store writes of the health-check loop (lines 116-119): one
put_bool("PandaHeartbeatLost", True) per board whose health record has
heartbeat_lost set, in board order, and nothing else. -/
def heartbeatWrites (ps : List Panda) : List ParamWrite :=
  ps.filterMap (fun p => if p.heartbeat_lost then some ⟨"PandaHeartbeatLost", true⟩ else none)

/-- Observable result of one supervision-loop iteration. -/
structure IterationResult where
  writes : List ParamWrite
  serials : List Serial
  outcome : Except PandadError Unit

/-- One iteration of the while-True loop of main (lines 113-136): health
check with its settings writes, reset of every board, deterministic sort,
serial extraction, close, then the daemon run whose non-zero exit raises. -/
def mainIteration (inp : IterationInput) : IterationResult :=
  ⟨heartbeatWrites inp.pandas,
   (sortPandas inp.pandas).map (fun p => p.serial),
   if inp.exitCode = 0 then Except.ok ()
   else Except.error (PandadError.calledProcessError inp.exitCode)⟩

/-- The while-True loop over a finite window of observed iterations: it
proceeds to the next iteration exactly when the previous one came back ok,
and stops with the escaped exception otherwise. -/
def mainLoop : List IterationInput → Except PandadError Unit
  | [] => Except.ok ()
  | inp :: rest =>
    match (mainIteration inp).outcome with
    | Except.ok _ => mainLoop rest
    | Except.error e => Except.error e

/-- C2 counterexample: with exit status 1 the iteration does not come back
to discovery: subprocess.run(check=True) raises CalledProcessError, which
main does not catch, so a single-iteration loop ends in the error. -/
theorem main_raises_on_nonzero_exit :
    (mainIteration ⟨[], 1⟩).outcome = Except.error (PandadError.calledProcessError 1) ∧
    (mainIteration ⟨[], 1⟩).outcome ≠ Except.ok () ∧
    mainLoop [⟨[], 1⟩, ⟨[], 0⟩] = Except.error (PandadError.calledProcessError 1) := by
  have h1 : (mainIteration ⟨[], 1⟩).outcome =
      Except.error (PandadError.calledProcessError 1) := rfl
  refine ⟨h1, ?_, rfl⟩
  rw [h1]
  intro h
  exact Except.noConfusion h

/-- C2 amended: an iteration of main loops back to discovery exactly when
the daemon exited with status 0; any non-zero exit status makes
subprocess.run(..., check=True) raise CalledProcessError out of main, and
the loop runs every observed iteration exactly when all observed exit
statuses are 0. -/
theorem main_restart_iff_zero_exit :
    (∀ inp : IterationInput,
      (mainIteration inp).outcome = Except.ok () ↔ inp.exitCode = 0) ∧
    (∀ inps : List IterationInput,
      mainLoop inps = Except.ok () ↔ ∀ inp ∈ inps, inp.exitCode = 0) := by
  have hone : ∀ inp : IterationInput,
      (mainIteration inp).outcome = Except.ok () ↔ inp.exitCode = 0 := by
    intro inp
    unfold mainIteration
    by_cases h : inp.exitCode = 0 <;> simp [h]
  refine ⟨hone, ?_⟩
  intro inps
  induction inps with
  | nil => simp [mainLoop]
  | cons inp rest ih =>
    unfold mainLoop
    by_cases h : inp.exitCode = 0
    · have : (mainIteration inp).outcome = Except.ok () := (hone inp).mpr h
      rw [this]
      simp [ih, h]
    · have h2 : (mainIteration inp).outcome =
          Except.error (PandadError.calledProcessError inp.exitCode) := by
        unfold mainIteration
        simp [h]
      rw [h2]
      simp [h]

/-- C9: in every iteration the settings store receives exactly one write per
board whose health record has heartbeat_lost set, every such write is of the
key "PandaHeartbeatLost" with value true, and no other key or value is ever
written: main never writes false, so it never clears the flag. -/
theorem heartbeat_writes_only_true (inp : IterationInput) :
    (mainIteration inp).writes =
      List.replicate (inp.pandas.countP (fun p => p.heartbeat_lost))
        ⟨"PandaHeartbeatLost", true⟩ := by
  show heartbeatWrites inp.pandas = _
  induction inp.pandas with
  | nil => rfl
  | cons p ps ih =>
    unfold heartbeatWrites
    rw [List.filterMap_cons]
    by_cases h : p.heartbeat_lost = true
    · simp only [h, if_true, List.countP_cons, h]
      simp [List.replicate_succ]
      exact ih
    · have h2 : p.heartbeat_lost = false := by
        cases hp : p.heartbeat_lost with
        | true => exact absurd hp h
        | false => rfl
      simp only [h2, List.countP_cons]
      simp [h2]
      exact ih
